import Mathlib

/-!
Verification model of the LINE chatbot repository.

The Python sources (`openai_service.py`, `app.py`, `line_bot.py`) are shallowly
embedded below.  Network calls and external collaborators (the OpenAI / Gemini /
Hugging Face / Ollama endpoints, the LINE SDK) are modelled by an explicit
environment record `Env` (resp. `WebEnv`) that fixes the outcome of every
external call; the code's own control flow is translated faithfully, branch by
branch, from `src/`.  Python string primitives used by the code (`str.lower`,
`str.strip`, `str.replace`, the `in` substring operator) are modelled by
kernel-computable character-list functions.
-/

/-! ## Python string primitives, modelled at the character level -/

/-- Model of Python `str.lower()` restricted to ASCII case (the tokens the code
compares against are ASCII or caseless CJK, for which this agrees). -/
def pyLower (s : String) : String := String.mk (s.data.map Char.toLower)

/-- Model of Python `str.strip()`: drop leading and trailing whitespace. -/
def pyStrip (s : String) : String :=
  String.mk ((((s.data.dropWhile Char.isWhitespace).reverse).dropWhile Char.isWhitespace).reverse)

/-- Does `needle` occur at the head of `hay`? (helper for the substring test). -/
def headMatches : List Char → List Char → Bool
  | [], _ => true
  | _ :: _, [] => false
  | a :: as, b :: bs => a == b && headMatches as bs

/-- Model of Python's `needle in hay` substring operator, on character lists. -/
def occursIn (needle : List Char) : List Char → Bool
  | [] => needle.isEmpty
  | b :: t => headMatches needle (b :: t) || occursIn needle t

/-- String version of the Python `in` substring test. -/
def strContains (hay needle : String) : Bool := occursIn needle.data hay.data

/-- One replacement pass with fuel, scanning left to right (non-overlapping),
as Python `str.replace` does.  The fuel is the length of the scanned list. -/
def replaceFrom (pat repl : List Char) : Nat → List Char → List Char
  | _, [] => []
  | 0, l => l
  | fuel + 1, c :: t =>
    if pat ≠ [] ∧ headMatches pat (c :: t) = true then
      repl ++ replaceFrom pat repl fuel (List.drop (pat.length - 1) t)
    else
      c :: replaceFrom pat repl fuel t

/-- Model of Python `str.replace(pat, repl)` (replace every occurrence). -/
def pyReplace (s pat repl : String) : String :=
  String.mk (replaceFrom pat.data repl.data s.data.length s.data)

/-- Python truthiness of `str` / `Optional[str]` values: `None` and `""` are
falsy, every other string is truthy. -/
def pyTruthy : Option String → Bool
  | none => false
  | some s => s != ""

/-- `any(word in message for word in words)` from the fallback responder. -/
def containsAny (message : String) (words : List String) : Bool :=
  words.any (fun w => strContains message w)

/-! ## Environment: outcomes of the external calls made by `openai_service.py` -/

/-- Outcome of the single `openai_client.chat.completions.create` call:
either the client library throws, or it returns a message whose `content`
field is `None` or a string. -/
inductive OpenAICallOutcome
  | throws
  | ok (content : Option String)
  deriving DecidableEq

/-- Outcome of one Gemini `model.generate_content` attempt (keyed by model
name): throws, or returns a response whose `text` is the given string
(`""` models a falsy/absent text). -/
inductive GeminiAttempt
  | throws
  | ok (text : String)
  deriving DecidableEq

/-- Outcome of an HTTP GET (the Hugging Face whoami credential probe). -/
inductive HFHttp
  | throws
  | status (code : Nat)
  deriving DecidableEq

/-- Outcome of one Hugging Face model inference POST: throws, or an HTTP
status together with — for 200 responses — the `generated_text` of the first
list element (`none` models a malformed/empty-list JSON body; the `.get`
default makes an absent key `""`, covered by `some ""`). -/
inductive HFCall
  | throws
  | resp (code : Nat) (generated : Option String)
  deriving DecidableEq

/-- Outcome of the Ollama `/api/generate` POST: throws, or a status with the
`response` field of the JSON body (`.get` default `""`). -/
inductive OllamaCall
  | throws
  | resp (code : Nat) (response : String)
  deriving DecidableEq

/-- Static configuration (environment variables read in `__init__`) together
with the outcome every external call would have during one
`generate_response` invocation. -/
structure Env where
  openaiKey : String
  openaiCall : OpenAICallOutcome
  geminiKey : String
  geminiGen : String → GeminiAttempt
  hfToken : String
  hfWhoami : HFHttp
  hfGen : String → HFCall
  anthropicKey : String
  ollamaUp : Bool
  ollamaGen : OllamaCall

/-! ## `openai_service.py`, translated -/

/-- `_check_ollama`: the reachability probe of `{ollama_url}/api/tags`. -/
def _check_ollama (env : Env) : Bool := env.ollamaUp

/-- `is_configured`: any credential present, or Ollama reachable. -/
def is_configured (env : Env) : Bool :=
  env.openaiKey != "" || env.hfToken != "" || env.geminiKey != "" ||
    env.anthropicKey != "" || _check_ollama env

/-- The Gemini model list tried in order. -/
def geminiModels : List String := ["gemini-1.5-flash", "gemini-1.5-pro", "gemini-pro"]

/-- The `for model_name in models` loop of `_generate_with_gemini`:
a throwing model advances to the next; a truthy `response.text` returns its
stripped value; a falsy text falls through to the next model. -/
def geminiTryList (env : Env) : List String → Option String
  | [] => none
  | name :: rest =>
    match env.geminiGen name with
    | GeminiAttempt.throws => geminiTryList env rest
    | GeminiAttempt.ok t =>
      if t != "" then some (pyStrip t) else geminiTryList env rest

/-- `_generate_with_gemini`. -/
def _generate_with_gemini (env : Env) : Option String :=
  if env.geminiKey == "" then none
  else geminiTryList env geminiModels

/-- The Hugging Face model list tried in order. -/
def hfModels : List String := ["bigscience/bloom-560m", "distilgpt2", "gpt2"]

/-- The `for model in models` loop of `_generate_with_huggingface`:
200 with a long-enough `generated_text` is accepted (whitespace-stripped, the
end-of-text marker removed, a fixed prefix prepended); 200 otherwise falls
through; 503 advances to the next model; 401 aborts the whole adapter;
any other status or a thrown request advances to the next model. -/
def hfTryList (env : Env) : List String → Option String
  | [] => none
  | name :: rest =>
    match env.hfGen name with
    | HFCall.throws => hfTryList env rest
    | HFCall.resp code generated =>
      if code == 200 then
        match generated with
        | some gt =>
          if gt ≠ "" ∧ 5 < (pyStrip gt).length then
            some ("AI 回應：" ++ pyReplace (pyStrip gt) "<|endoftext|>" "")
          else hfTryList env rest
        | none => hfTryList env rest
      else if code == 503 then hfTryList env rest
      else if code == 401 then none
      else hfTryList env rest

/-- `_generate_with_huggingface`: missing token or a failing whoami probe
short-circuits to `none`; otherwise the model loop runs. -/
def _generate_with_huggingface (env : Env) : Option String :=
  if env.hfToken == "" then none
  else
    match env.hfWhoami with
    | HFHttp.throws => none
    | HFHttp.status code => if code != 200 then none else hfTryList env hfModels

/-- `_generate_with_ollama`: probe first, then one generation call; a 200
response returns the stripped `response` field, anything else `none`. -/
def _generate_with_ollama (env : Env) : Option String :=
  if !(_check_ollama env) then none
  else
    match env.ollamaGen with
    | OllamaCall.throws => none
    | OllamaCall.resp code r => if code == 200 then some (pyStrip r) else none

/-! ## The fallback responder -/

def fbGreet : String :=
  "你好！我是你的智能助手。雖然高級 AI 功能暫時無法使用，但我仍然可以協助你處理一些基本問題。"
def fbHelp : String :=
  "我可以提供以下協助：\n• 回答常見問題\n• 提供基本資訊\n• 進行簡單對話\n• 協助使用說明\n\n目前 AI 服務正在維護中，完整功能將稍後恢復。"
def fbTime : String :=
  "抱歉，我目前無法取得即時時間資訊。請檢查你的裝置時間或稍後再試。"
def fbWeather : String :=
  "抱歉，我目前無法提供天氣資訊。建議你查看天氣應用程式或氣象網站。"
def fbThanks : String :=
  "不客氣！很高興能為你服務。如有其他問題，隨時可以詢問我。"
def fbBye : String :=
  "再見！期待下次為你服務。祝你有美好的一天！"
def fbDefault : String :=
  "我收到了你的訊息，但目前高級 AI 功能暫時無法使用。請稍後再試，或者詢問一些基本問題，我會盡力協助你。"

def greetKeywords : List String := ["你好", "嗨", "hi", "hello", "哈囉"]
def helpKeywords : List String := ["幫助", "幫忙", "help", "說明", "功能"]
def timeKeywords : List String := ["時間", "日期", "現在", "time", "date"]
def weatherKeywords : List String := ["天氣", "氣溫", "weather", "下雨"]
def thanksKeywords : List String := ["謝謝", "感謝", "thank", "謝"]
def byeKeywords : List String := ["再見", "掰掰", "bye", "goodbye", "拜拜"]

/-- `_generate_fallback_response`: lower-case, then the if-chain of keyword
substring tests in source order, with the generic default at the end. -/
def _generate_fallback_response (user_message : String) : String :=
  if containsAny (pyLower user_message) greetKeywords then fbGreet
  else if containsAny (pyLower user_message) helpKeywords then fbHelp
  else if containsAny (pyLower user_message) timeKeywords then fbTime
  else if containsAny (pyLower user_message) weatherKeywords then fbWeather
  else if containsAny (pyLower user_message) thanksKeywords then fbThanks
  else if containsAny (pyLower user_message) byeKeywords then fbBye
  else fbDefault

/-! ## `generate_response`, instrumented with the list of tiers invoked -/

/-- Canned replies of `generate_response`. -/
def unavailableMsg : String := "抱歉，AI 服務目前無法使用。請稍後再試。"
def finalUnavailableMsg : String := "抱歉，AI 服務目前無法使用。請稍後再試或聯絡管理員。"
def greetingReply : String := "你好！我是你的智能助手，有什麼可以幫助你的嗎？"
def helpMenu : String :=
  "我可以幫助你：\n• 回答各種問題\n• 進行日常對話\n• 提供資訊和建議\n• 解釋概念和知識\n\n直接輸入你的問題或想聊的話題就可以了！"

def greetCmds : List String := ["hi", "hello", "你好", "嗨"]
def helpCmds : List String := ["help", "幫助", "說明"]

/-- A tier of `generate_response` whose code was entered. `finalMsg` marks the
very last `return` statement (after the rule-based fallback). -/
inductive Step
  | openai
  | gemini
  | hf
  | ollama
  | ruleFallback
  | finalMsg
  deriving DecidableEq

/-- `ai_response = content; if ai_response: ai_response = ai_response.strip();
return ai_response` — the value returned by the OpenAI tier on a successful
call (note: returned even when empty or `None`). -/
def stripIfTruthy : Option String → Option String
  | none => none
  | some s => if s == "" then some s else some (pyStrip s)

/-- Tier 5 of `generate_response`: the rule-based fallback, then the final
"service unavailable" return. -/
def restFallback (user_message : String) (tr : List Step) : Option String × List Step :=
  let fb := _generate_fallback_response user_message
  if fb != "" then (some fb, tr ++ [Step.ruleFallback])
  else (some finalUnavailableMsg, tr ++ [Step.ruleFallback, Step.finalMsg])

/-- Tier 4 of `generate_response`: Ollama. -/
def restOllama (env : Env) (user_message : String) (tr : List Step) :
    Option String × List Step :=
  let r := _generate_with_ollama env
  if pyTruthy r then (r, tr ++ [Step.ollama])
  else restFallback user_message (tr ++ [Step.ollama])

/-- Tier 3 of `generate_response`: Hugging Face. -/
def restHF (env : Env) (user_message : String) (tr : List Step) :
    Option String × List Step :=
  let r := _generate_with_huggingface env
  if pyTruthy r then (r, tr ++ [Step.hf])
  else restOllama env user_message (tr ++ [Step.hf])

/-- Tier 2 of `generate_response`: Gemini. -/
def restGemini (env : Env) (user_message : String) (tr : List Step) :
    Option String × List Step :=
  let r := _generate_with_gemini env
  if pyTruthy r then (r, tr ++ [Step.gemini])
  else restHF env user_message (tr ++ [Step.gemini])

/-- `generate_response`, returning the Python return value (`none` models
Python `None`) together with the list of tiers whose code ran. -/
def generate_responseI (env : Env) (user_message : String) :
    Option String × List Step :=
  if !(is_configured env) then (some unavailableMsg, [])
  else if greetCmds.contains (pyLower user_message) then (some greetingReply, [])
  else if helpCmds.contains (pyLower user_message) then (some helpMenu, [])
  else if env.openaiKey != "" then
    match env.openaiCall with
    | OpenAICallOutcome.throws => restGemini env user_message [Step.openai]
    | OpenAICallOutcome.ok content => (stripIfTruthy content, [Step.openai])
  else restGemini env user_message []

/-- `generate_response` proper: just the returned value. -/
def generate_response (env : Env) (user_message : String) : Option String :=
  (generate_responseI env user_message).1

/-! ## `app.py` / `line_bot.py`: the webhook and test endpoints -/

/-- An event parsed from the webhook body: a text message (with its text and
reply token) or any other kind of event. -/
inductive LineEvent
  | textMsg (text replyToken : String)
  | nonText
  deriving DecidableEq

/-- Outcome of `handler.parse(body, signature)` for the request at hand:
an `InvalidSignatureError`, some other parsing exception, or a list of
events. -/
inductive ParseOutcome
  | invalidSignature
  | otherError
  | events (evs : List LineEvent)

/-- Environment of one POST to `/webhook`: whether the LINE credentials are
present, what the SDK's parse would yield, the AI environment used by
`generate_response`, and whether `reply_message` would raise for a given
reply token. -/
structure WebEnv where
  lineConfigured : Bool
  parse : ParseOutcome
  ai : Env
  replyThrows : String → Bool

/-- The `for event in events` loop of `webhook()`: text-message events invoke
`generate_response` and then `reply_message`; the returned Bool is `false`
when a reply raised (aborting the loop), and the list collects every
invocation of the reply API with its payload. -/
def processEvents (w : WebEnv) :
    List LineEvent → List (String × Option String) → Bool × List (String × Option String)
  | [], sent => (true, sent)
  | LineEvent.nonText :: rest, sent => processEvents w rest sent
  | LineEvent.textMsg t rt :: rest, sent =>
    let sent2 := sent ++ [(rt, generate_response w.ai t)]
    if w.replyThrows rt then (false, sent2) else processEvents w rest sent2

/-- `webhook()`: `parse_webhook` raises when unconfigured or on a bad
signature or parse error; any exception anywhere is caught by the top-level
handler and turned into `('Error', 500)`; otherwise `('OK', 200)`.  The third
component records the reply-API invocations made. -/
def webhook (w : WebEnv) : Nat × String × List (String × Option String) :=
  if !(w.lineConfigured) then (500, "Error", [])
  else
    match w.parse with
    | ParseOutcome.invalidSignature => (500, "Error", [])
    | ParseOutcome.otherError => (500, "Error", [])
    | ParseOutcome.events evs =>
      match processEvents w evs [] with
      | (true, sent) => (200, "OK", sent)
      | (false, sent) => (500, "Error", sent)

/-- Body of a POST to `/api/test-message`: a body on which `get_json` raises
(or returns a non-dict), or a JSON object whose `message` key is absent
(`none`) or holds a string. -/
inductive TestBody
  | badJson
  | json (message : Option String)

/-- JSON payload returned by `/api/test-message`. -/
inductive TestResp
  | fieldError (e : String)
  | fieldResponse (r : Option String)
  deriving DecidableEq

/-- `test_message()`: missing/empty `message` yields 400 with the fixed error;
otherwise 200 with `generate_response`'s output; a body that makes the
handler raise yields 500 (its error string is the exception text, left
unspecified here). -/
def test_message (env : Env) (b : TestBody) : Nat × TestResp :=
  match b with
  | TestBody.badJson => (500, TestResp.fieldError "internal error")
  | TestBody.json mo =>
    if mo.getD "" == "" then (400, TestResp.fieldError "Message is required")
    else (200, TestResp.fieldResponse (generate_response env (mo.getD "")))

/-! ## Concrete environments used by witnesses and counterexamples -/

/-- No credential present, Ollama unreachable: nothing is configured. -/
def envNone : Env :=
  { openaiKey := "", openaiCall := OpenAICallOutcome.throws,
    geminiKey := "", geminiGen := fun _ => GeminiAttempt.throws,
    hfToken := "", hfWhoami := HFHttp.throws, hfGen := fun _ => HFCall.throws,
    anthropicKey := "", ollamaUp := false, ollamaGen := OllamaCall.throws }

/-- Only the (unused) Anthropic key is set: `is_configured` holds but every
adapter tier yields no result. -/
def envAnthropicOnly : Env :=
  { envNone with anthropicKey := "k" }

/-- OpenAI configured and its call succeeds with `content = None`. -/
def envOpenAINone : Env :=
  { envNone with openaiKey := "sk-test", openaiCall := OpenAICallOutcome.ok none }

/-- OpenAI succeeds with whitespace-only content while Gemini would return
`"hello"`. -/
def envOpenAIBlank : Env :=
  { envNone with
    openaiKey := "sk-test", openaiCall := OpenAICallOutcome.ok (some " "),
    geminiKey := "g-test",
    geminiGen := fun name =>
      if name == "gemini-1.5-flash" then GeminiAttempt.ok "hello" else GeminiAttempt.throws }

/-- OpenAI succeeds with real content while Gemini is also configured. -/
def envOpenAIWins : Env :=
  { envOpenAIBlank with openaiCall := OpenAICallOutcome.ok (some " hey ") }

/-- Hugging Face configured, whoami OK; the first model is warming (503), the
second answers 200 with a usable generation. -/
def envHF : Env :=
  { envNone with
    hfToken := "hf-test", hfWhoami := HFHttp.status 200,
    hfGen := fun name =>
      if name == "bigscience/bloom-560m" then HFCall.resp 503 none
      else if name == "distilgpt2" then HFCall.resp 200 (some "hello friend<|endoftext|>")
      else HFCall.throws }

/-- The fallback responder's six keyword sets with their canned replies, in
the spec's priority order (greeting, help, time/date, weather, thanks,
goodbye). -/
def fallbackTable : List (List String × String) :=
  [(greetKeywords, fbGreet), (helpKeywords, fbHelp), (timeKeywords, fbTime),
   (weatherKeywords, fbWeather), (thanksKeywords, fbThanks), (byeKeywords, fbBye)]

/-- Modelled from the spec (section 4.3), for the refinement claim about the
Fallback Responder: lower-case the message, return the canned response of the
first keyword set (in the fixed priority order) containing a matching
substring, and the generic default when none matches. -/
def fallbackSpecPolicy (user_message : String) : String :=
  match fallbackTable.find? (fun p => containsAny (pyLower user_message) p.1) with
  | some p => p.2
  | none => fbDefault

/-! ## Helper lemmas -/

/-- Every branch of the fallback responder returns a non-empty canned string. -/
theorem fallback_ne_empty (m : String) : _generate_fallback_response m ≠ "" := by
  unfold _generate_fallback_response
  repeat' split
  all_goals decide

/-- The last tier always returns the fallback responder's text: the guard of
the final `return` is never false. -/
theorem restFallback_eq (m : String) (tr : List Step) :
    restFallback m tr = (some (_generate_fallback_response m), tr ++ [Step.ruleFallback]) := by
  unfold restFallback
  rw [if_pos]
  simp only [bne_iff_ne, ne_eq]
  exact fallback_ne_empty m

theorem restGemini_skip (env : Env) (m : String) (tr : List Step)
    (h : pyTruthy (_generate_with_gemini env) = false) :
    restGemini env m tr = restHF env m (tr ++ [Step.gemini]) := by
  unfold restGemini
  simp [h]

theorem restHF_skip (env : Env) (m : String) (tr : List Step)
    (h : pyTruthy (_generate_with_huggingface env) = false) :
    restHF env m tr = restOllama env m (tr ++ [Step.hf]) := by
  unfold restHF
  simp [h]

theorem restOllama_skip (env : Env) (m : String) (tr : List Step)
    (h : pyTruthy (_generate_with_ollama env) = false) :
    restOllama env m tr = restFallback m (tr ++ [Step.ollama]) := by
  unfold restOllama
  simp [h]

theorem restGemini_win (env : Env) (m : String) (tr : List Step)
    (h : pyTruthy (_generate_with_gemini env) = true) :
    restGemini env m tr = (_generate_with_gemini env, tr ++ [Step.gemini]) := by
  unfold restGemini
  simp [h]

theorem restHF_win (env : Env) (m : String) (tr : List Step)
    (h : pyTruthy (_generate_with_huggingface env) = true) :
    restHF env m tr = (_generate_with_huggingface env, tr ++ [Step.hf]) := by
  unfold restHF
  simp [h]

theorem restOllama_win (env : Env) (m : String) (tr : List Step)
    (h : pyTruthy (_generate_with_ollama env) = true) :
    restOllama env m tr = (_generate_with_ollama env, tr ++ [Step.ollama]) := by
  unfold restOllama
  simp [h]

/-- When all three free tiers yield nothing, the tier chain lands in the
rule-based fallback, recording the tiers in order. -/
theorem restGemini_allFail (env : Env) (m : String) (tr : List Step)
    (hg : pyTruthy (_generate_with_gemini env) = false)
    (hh : pyTruthy (_generate_with_huggingface env) = false)
    (ho : pyTruthy (_generate_with_ollama env) = false) :
    restGemini env m tr =
      (some (_generate_fallback_response m),
        tr ++ [Step.gemini, Step.hf, Step.ollama, Step.ruleFallback]) := by
  rw [restGemini_skip env m tr hg, restHF_skip env m _ hh, restOllama_skip env m _ ho,
    restFallback_eq]
  simp

/-- If a message contains a thanks keyword and none of the four
higher-priority keyword sets, the fallback responder returns the thanks
reply (in particular the goodbye set is never consulted). -/
theorem fallback_thanks (m : String)
    (h1 : containsAny (pyLower m) greetKeywords = false)
    (h2 : containsAny (pyLower m) helpKeywords = false)
    (h3 : containsAny (pyLower m) timeKeywords = false)
    (h4 : containsAny (pyLower m) weatherKeywords = false)
    (h5 : containsAny (pyLower m) thanksKeywords = true) :
    _generate_fallback_response m = fbThanks := by
  unfold _generate_fallback_response
  simp [h1, h2, h3, h4, h5]

/-- A lowercased message that equals one of the greeting command tokens also
matches the fallback responder's greeting keyword set. -/
theorem greetCmd_hits_keywords (s : String) (h : greetCmds.contains s = true) :
    containsAny s greetKeywords = true := by
  have hmem : s = "hi" ∨ s = "hello" ∨ s = "你好" ∨ s = "嗨" := by
    simpa [greetCmds, List.contains, List.elem_eq_mem, List.mem_cons] using h
  rcases hmem with h | h | h | h <;> subst h <;> decide

/-- A lowercased message that equals one of the help command tokens also
matches the fallback responder's help keyword set. -/
theorem helpCmd_hits_keywords (s : String) (h : helpCmds.contains s = true) :
    containsAny s helpKeywords = true := by
  have hmem : s = "help" ∨ s = "幫助" ∨ s = "說明" := by
    simpa [helpCmds, List.contains, List.elem_eq_mem, List.mem_cons] using h
  rcases hmem with h | h | h <;> subst h <;> decide

/-- When the service is configured, the message is not one of the fixed
commands, the OpenAI tier does not win (unconfigured or throwing), and the
three remaining adapters all yield nothing, `generate_response` returns
exactly the fallback responder's text. -/
theorem allFail_gives_fallback (env : Env) (m : String)
    (hc : is_configured env = true)
    (hg1 : greetCmds.contains (pyLower m) = false)
    (hg2 : helpCmds.contains (pyLower m) = false)
    (ho : env.openaiKey = "" ∨ env.openaiCall = OpenAICallOutcome.throws)
    (hgem : pyTruthy (_generate_with_gemini env) = false)
    (hhf : pyTruthy (_generate_with_huggingface env) = false)
    (holl : pyTruthy (_generate_with_ollama env) = false) :
    generate_response env m = some (_generate_fallback_response m) := by
  have hg1' : pyLower m ∉ greetCmds := by simpa using hg1
  have hg2' : pyLower m ∉ helpCmds := by simpa using hg2
  unfold generate_response generate_responseI
  rcases ho with h | h
  · simp [hc, hg1', hg2', h, restGemini_allFail env m _ hgem hhf holl]
  · by_cases hk : env.openaiKey = ""
    · simp [hc, hg1', hg2', hk, restGemini_allFail env m _ hgem hhf holl]
    · simp [hc, hg1', hg2', hk, h, restGemini_allFail env m _ hgem hhf holl]

theorem mem_restFallback_steps (m : String) (tr : List Step) (s : Step)
    (h : s ∈ (restFallback m tr).2) : s ∈ tr ∨ s = Step.ruleFallback := by
  rw [restFallback_eq] at h
  simpa using h

theorem mem_restOllama_steps (env : Env) (m : String) (tr : List Step) (s : Step)
    (h : s ∈ (restOllama env m tr).2) :
    s ∈ tr ∨ s = Step.ollama ∨ s = Step.ruleFallback := by
  by_cases hp : pyTruthy (_generate_with_ollama env) = true
  · rw [restOllama_win env m tr hp] at h
    have : s ∈ tr ∨ s = Step.ollama := by simpa using h
    tauto
  · rw [restOllama_skip env m tr (by simpa using hp)] at h
    have := mem_restFallback_steps m (tr ++ [Step.ollama]) s h
    simp only [List.mem_append, List.mem_singleton] at this
    tauto

theorem mem_restHF_steps (env : Env) (m : String) (tr : List Step) (s : Step)
    (h : s ∈ (restHF env m tr).2) :
    s ∈ tr ∨ s = Step.hf ∨ s = Step.ollama ∨ s = Step.ruleFallback := by
  by_cases hp : pyTruthy (_generate_with_huggingface env) = true
  · rw [restHF_win env m tr hp] at h
    have : s ∈ tr ∨ s = Step.hf := by simpa using h
    tauto
  · rw [restHF_skip env m tr (by simpa using hp)] at h
    have := mem_restOllama_steps env m (tr ++ [Step.hf]) s h
    simp only [List.mem_append, List.mem_singleton] at this
    tauto

theorem mem_restGemini_steps (env : Env) (m : String) (tr : List Step) (s : Step)
    (h : s ∈ (restGemini env m tr).2) :
    s ∈ tr ∨ s = Step.gemini ∨ s = Step.hf ∨ s = Step.ollama ∨ s = Step.ruleFallback := by
  by_cases hp : pyTruthy (_generate_with_gemini env) = true
  · rw [restGemini_win env m tr hp] at h
    have : s ∈ tr ∨ s = Step.gemini := by simpa using h
    tauto
  · rw [restGemini_skip env m tr (by simpa using hp)] at h
    have := mem_restHF_steps env m (tr ++ [Step.gemini]) s h
    simp only [List.mem_append, List.mem_singleton] at this
    tauto

/-! ## Claim theorems -/

/-- C5: the Fallback Responder is a pure total function that lower-cases the
message, tests substring membership against the six keyword sets in the fixed
priority order greeting, help, time/date, weather, thanks, goodbye, returns
the canned response of the first set matched, and the generic
"message received, advanced features unavailable" response when none match:
the translated `_generate_fallback_response` coincides with the spec-side
first-match policy on every input. -/
theorem C5_fallback_refines_spec :
    ∀ m, _generate_fallback_response m = fallbackSpecPolicy m := by
  intro m
  unfold _generate_fallback_response fallbackSpecPolicy
  cases h1 : containsAny (pyLower m) greetKeywords <;>
    cases h2 : containsAny (pyLower m) helpKeywords <;>
      cases h3 : containsAny (pyLower m) timeKeywords <;>
        cases h4 : containsAny (pyLower m) weatherKeywords <;>
          cases h5 : containsAny (pyLower m) thanksKeywords <;>
            cases h6 : containsAny (pyLower m) byeKeywords <;>
              simp [fallbackTable, List.find?, h1, h2, h3, h4, h5, h6]

/-- C9: for every input string the fallback responder returns a non-empty
string, and consequently the final "service unavailable" return at the end of
`generate_response` (the branch after the fallback responder) is unreachable:
no execution trace ever contains the `finalMsg` step. -/
theorem C9_final_return_unreachable :
    (∀ m, _generate_fallback_response m ≠ "") ∧
    (∀ env m, Step.finalMsg ∉ (generate_responseI env m).2) := by
  constructor
  · exact fallback_ne_empty
  · intro env m h
    unfold generate_responseI at h
    split at h
    · simp at h
    · split at h
      · simp at h
      · split at h
        · simp at h
        · split at h
          · split at h
            · rcases mem_restGemini_steps _ _ _ _ h with hh | hh | hh | hh | hh <;>
                simp_all
            · simp at h
          · rcases mem_restGemini_steps _ _ _ _ h with hh | hh | hh | hh | hh <;>
              simp_all

/-- C1: evaluation of the code at the failing input.  With OpenAI configured
and its chat-completion call succeeding with `message.content = None`, the
translated `generate_response` returns Python `None` (modelled `none`) — not
a non-empty string: the OpenAI tier returns `ai_response` without the
non-emptiness check the other tiers perform. -/
theorem C1_empty_content_returned :
    generate_response envOpenAINone "什麼是人工智慧" = none := by
  decide

/-- C2 counterexample: with no adapter configured, `generate_response "hi"`
returns the fixed unavailable message, not the greeting reply — the
configured-check precedes the greeting check, so the greeting path does not
apply to an unconfigured service. -/
theorem C2_counterexample :
    generate_response envNone "hi" = some unavailableMsg ∧
      unavailableMsg ≠ greetingReply := by
  constructor
  · decide
  · decide

/-- C2 amended: whenever at least one backend signal is configured
(`is_configured` true), any message whose lowercase form is one of the fixed
greeting tokens returns the fixed greeting reply with an empty tier trace —
the greeting path bypasses all backends. -/
theorem C2_greeting_bypasses_backends :
    ∀ env m, is_configured env = true →
      greetCmds.contains (pyLower m) = true →
      generate_responseI env m = (some greetingReply, []) := by
  intro env m hc hg
  have hg' : pyLower m ∈ greetCmds := by simpa using hg
  unfold generate_responseI
  simp [hc, hg']

/-- C2 witness: the amended theorem applied to a configured environment with
no usable adapter and the case-variant input "Hi". -/
theorem C2_witness :
    is_configured envAnthropicOnly = true ∧
      greetCmds.contains (pyLower "Hi") = true ∧
      generate_responseI envAnthropicOnly "Hi" = (some greetingReply, []) :=
  ⟨by decide, by decide,
    C2_greeting_bypasses_backends envAnthropicOnly "Hi" (by decide) (by decide)⟩

/-- C3 counterexample: "thank you, bye" contains both a thanks token
("thank") and a goodbye token ("bye"), yet with every adapter returning no
result `generate_response` yields the thanks reply, not the goodbye reply:
the fallback responder checks thanks before goodbye. -/
theorem C3_counterexample :
    generate_response envAnthropicOnly "thank you, bye" = some fbThanks ∧
      fbThanks ≠ fbBye := by
  constructor
  · decide
  · decide

/-- C3 amended: when the service is configured but every adapter returns no
result, a message that contains both a thanks token and a goodbye token (and
none of the four higher-priority keyword sets) resolves to the Fallback
Responder's thanks reply, because thanks is checked before goodbye in the
fixed order greeting, help, time/date, weather, thanks, goodbye. -/
theorem C3_thanks_beats_goodbye :
    ∀ env m, is_configured env = true →
      (env.openaiKey = "" ∨ env.openaiCall = OpenAICallOutcome.throws) →
      pyTruthy (_generate_with_gemini env) = false →
      pyTruthy (_generate_with_huggingface env) = false →
      pyTruthy (_generate_with_ollama env) = false →
      containsAny (pyLower m) thanksKeywords = true →
      containsAny (pyLower m) byeKeywords = true →
      containsAny (pyLower m) greetKeywords = false →
      containsAny (pyLower m) helpKeywords = false →
      containsAny (pyLower m) timeKeywords = false →
      containsAny (pyLower m) weatherKeywords = false →
      generate_response env m = some fbThanks := by
  intro env m hc ho hgem hhf holl hth hby hg hh ht hw
  have hcmd1 : greetCmds.contains (pyLower m) = false := by
    cases hcontain : greetCmds.contains (pyLower m)
    · rfl
    · exact absurd (greetCmd_hits_keywords (pyLower m) hcontain) (by simp [hg])
  have hcmd2 : helpCmds.contains (pyLower m) = false := by
    cases hcontain : helpCmds.contains (pyLower m)
    · rfl
    · exact absurd (helpCmd_hits_keywords (pyLower m) hcontain) (by simp [hh])
  rw [allFail_gives_fallback env m hc hcmd1 hcmd2 ho hgem hhf holl,
    fallback_thanks m hg hh ht hw hth]

/-- C3 witness: the amended theorem applied to the anthropic-only environment
(configured, every adapter fails) and the message "thank you, bye". -/
theorem C3_witness :
    containsAny (pyLower "thank you, bye") thanksKeywords = true ∧
      containsAny (pyLower "thank you, bye") byeKeywords = true ∧
      generate_response envAnthropicOnly "thank you, bye" = some fbThanks :=
  ⟨by decide, by decide,
    C3_thanks_beats_goodbye envAnthropicOnly "thank you, bye" (by decide)
      (Or.inl (by decide)) (by decide) (by decide) (by decide) (by decide)
      (by decide) (by decide) (by decide) (by decide) (by decide)⟩

/-- When the service is configured, the message is not a fixed command, and
the OpenAI tier does not win (unconfigured or throwing), control reaches the
Gemini tier with the trace accumulated so far. -/
theorem reach_restGemini (env : Env) (m : String)
    (hc : is_configured env = true)
    (hg1 : greetCmds.contains (pyLower m) = false)
    (hg2 : helpCmds.contains (pyLower m) = false)
    (ho : env.openaiKey = "" ∨ env.openaiCall = OpenAICallOutcome.throws) :
    generate_responseI env m =
      restGemini env m (if env.openaiKey != "" then [Step.openai] else []) := by
  have hg1' : pyLower m ∉ greetCmds := by simpa using hg1
  have hg2' : pyLower m ∉ helpCmds := by simpa using hg2
  unfold generate_responseI
  by_cases hk : env.openaiKey = ""
  · simp [hc, hg1', hg2', hk]
  · rcases ho with h | h
    · exact absurd h hk
    · simp [hc, hg1', hg2', hk, h]

/-- C4 counterexample: OpenAI succeeds with whitespace-only content while
Gemini — the first adapter returning a non-empty result — would return
"hello"; the code nevertheless returns the empty string from the OpenAI tier,
so "the first adapter returning a non-empty result wins" fails here. -/
theorem C4_counterexample :
    generate_response envOpenAIBlank "今天如何" = some "" ∧
      _generate_with_gemini envOpenAIBlank = some "hello" ∧
      ("" : String) ≠ "hello" := by
  refine ⟨by decide, by decide, by decide⟩

/-- C4 amended: adapters are attempted in the fixed order OpenAI → Gemini →
Hugging Face → Ollama.  A successful OpenAI call returns immediately with its
(possibly empty or `None`) stripped content and no later tier runs; otherwise
the first of the remaining adapters to return a truthy (non-`None`,
non-empty) result wins, is returned unmodified, and no later tier runs — the
recorded traces contain exactly the tiers up to the winner. -/
theorem C4_order_and_short_circuit :
    ∀ env m, is_configured env = true →
      greetCmds.contains (pyLower m) = false →
      helpCmds.contains (pyLower m) = false →
      ((∀ c, env.openaiKey ≠ "" → env.openaiCall = OpenAICallOutcome.ok c →
          generate_responseI env m = (stripIfTruthy c, [Step.openai])) ∧
       (∀ g, (env.openaiKey = "" ∨ env.openaiCall = OpenAICallOutcome.throws) →
          _generate_with_gemini env = some g → g ≠ "" →
          generate_responseI env m =
            (some g, (if env.openaiKey != "" then [Step.openai] else []) ++ [Step.gemini])) ∧
       (∀ s, (env.openaiKey = "" ∨ env.openaiCall = OpenAICallOutcome.throws) →
          pyTruthy (_generate_with_gemini env) = false →
          _generate_with_huggingface env = some s → s ≠ "" →
          generate_responseI env m =
            (some s, (if env.openaiKey != "" then [Step.openai] else []) ++
              [Step.gemini, Step.hf])) ∧
       (∀ s, (env.openaiKey = "" ∨ env.openaiCall = OpenAICallOutcome.throws) →
          pyTruthy (_generate_with_gemini env) = false →
          pyTruthy (_generate_with_huggingface env) = false →
          _generate_with_ollama env = some s → s ≠ "" →
          generate_responseI env m =
            (some s, (if env.openaiKey != "" then [Step.openai] else []) ++
              [Step.gemini, Step.hf, Step.ollama]))) := by
  intro env m hc hg1 hg2
  have hg1' : pyLower m ∉ greetCmds := by simpa using hg1
  have hg2' : pyLower m ∉ helpCmds := by simpa using hg2
  refine ⟨?_, ?_, ?_, ?_⟩
  · intro c hk hcall
    unfold generate_responseI
    simp [hc, hg1', hg2', hk, hcall]
  · intro g ho hgem hgne
    have ht : pyTruthy (_generate_with_gemini env) = true := by
      rw [hgem]; simpa [pyTruthy] using hgne
    rw [reach_restGemini env m hc hg1 hg2 ho, restGemini_win env m _ ht, hgem]
  · intro s ho hgem hhf hsne
    have ht : pyTruthy (_generate_with_huggingface env) = true := by
      rw [hhf]; simpa [pyTruthy] using hsne
    rw [reach_restGemini env m hc hg1 hg2 ho, restGemini_skip env m _ hgem,
      restHF_win env m _ ht, hhf]
    simp
  · intro s ho hgem hhf holl hsne
    have ht : pyTruthy (_generate_with_ollama env) = true := by
      rw [holl]; simpa [pyTruthy] using hsne
    rw [reach_restGemini env m hc hg1 hg2 ho, restGemini_skip env m _ hgem,
      restHF_skip env m _ hhf, restOllama_win env m _ ht, holl]
    simp

/-- C4 witness: the amended theorem's first conjunct at a concrete
environment where OpenAI succeeds while Gemini is also configured — the
OpenAI result is returned and the trace shows no later tier ran. -/
theorem C4_witness :
    is_configured envOpenAIWins = true ∧
      generate_responseI envOpenAIWins "今天如何" = (some "hey", [Step.openai]) :=
  ⟨by decide,
    (C4_order_and_short_circuit envOpenAIWins "今天如何" (by decide) (by decide)
        (by decide)).1 (some " hey ") (by decide) rfl⟩

/-- C6: the Hugging Face adapter validates the credential with a whoami call
first and short-circuits to no-result when it fails (throw or non-200);
otherwise it runs the model loop, in which HTTP 503 advances to the next
model, HTTP 401 terminates the whole adapter with no result, a 200 response
is accepted only when the whitespace-stripped text has length > 5 — the
accepted text having the end-of-text marker removed before it is returned —
and a too-short 200 response advances to the next model. -/
theorem C6_huggingface_policy :
    (∀ env, env.hfToken ≠ "" → env.hfWhoami = HFHttp.throws →
        _generate_with_huggingface env = none) ∧
    (∀ env code, env.hfToken ≠ "" → env.hfWhoami = HFHttp.status code →
        code ≠ 200 → _generate_with_huggingface env = none) ∧
    (∀ env, env.hfToken ≠ "" → env.hfWhoami = HFHttp.status 200 →
        _generate_with_huggingface env = hfTryList env hfModels) ∧
    (∀ env name rest p, env.hfGen name = HFCall.resp 503 p →
        hfTryList env (name :: rest) = hfTryList env rest) ∧
    (∀ env name rest p, env.hfGen name = HFCall.resp 401 p →
        hfTryList env (name :: rest) = none) ∧
    (∀ env name rest gt, env.hfGen name = HFCall.resp 200 (some gt) →
        gt ≠ "" → 5 < (pyStrip gt).length →
        hfTryList env (name :: rest) =
          some ("AI 回應：" ++ pyReplace (pyStrip gt) "<|endoftext|>" "")) ∧
    (∀ env name rest gt, env.hfGen name = HFCall.resp 200 (some gt) →
        (pyStrip gt).length ≤ 5 →
        hfTryList env (name :: rest) = hfTryList env rest) := by
  refine ⟨?_, ?_, ?_, ?_, ?_, ?_, ?_⟩
  · intro env htok hwho
    unfold _generate_with_huggingface
    simp [htok, hwho]
  · intro env code htok hwho hcode
    unfold _generate_with_huggingface
    simp [htok, hwho, hcode]
  · intro env htok hwho
    unfold _generate_with_huggingface
    simp [htok, hwho]
  · intro env name rest p hcall
    conv_lhs => rw [hfTryList]
    cases p <;> simp [hcall]
  · intro env name rest p hcall
    conv_lhs => rw [hfTryList]
    cases p <;> simp [hcall]
  · intro env name rest gt hcall hne hlen
    unfold hfTryList
    simp [hcall, hne, hlen]
  · intro env name rest gt hcall hlen
    conv_lhs => rw [hfTryList]
    simp [hcall, Nat.not_lt.mpr hlen]

/-- C6 witness: with a valid token and whoami 200, the first model warming
(503) is skipped, and the second model's 200 answer is accepted with the
end-of-text marker stripped. -/
theorem C6_witness :
    _generate_with_huggingface envHF = hfTryList envHF hfModels ∧
      hfTryList envHF ["distilgpt2"] = some "AI 回應：hello friend" :=
  ⟨C6_huggingface_policy.2.2.1 envHF (by decide) (by decide),
    C6_huggingface_policy.2.2.2.2.2.1 envHF "distilgpt2" [] "hello friend<|endoftext|>"
      (by decide) (by decide) (by decide)⟩

/-- C7: webhook behaviour — an invalid signature yields HTTP 500 "Error"
with no reply sent; a parsed single text-message event invokes the reply API
exactly once with the generated text (and yields HTTP 200 "OK" when the
reply call does not raise); zero events yield HTTP 200 "OK" with no reply;
and every request is answered with either 200 "OK" or 500 "Error" — no
exception escapes the top-level handler. -/
theorem C7_webhook_contract :
    (∀ ai rf, webhook ⟨true, ParseOutcome.invalidSignature, ai, rf⟩ = (500, "Error", [])) ∧
    (∀ ai rf t rt, (webhook ⟨true, ParseOutcome.events [LineEvent.textMsg t rt], ai, rf⟩).2.2
        = [(rt, generate_response ai t)]) ∧
    (∀ ai t rt, webhook ⟨true, ParseOutcome.events [LineEvent.textMsg t rt], ai, fun _ => false⟩
        = (200, "OK", [(rt, generate_response ai t)])) ∧
    (∀ ai rf, webhook ⟨true, ParseOutcome.events [], ai, rf⟩ = (200, "OK", [])) ∧
    (∀ w, ((webhook w).1 = 200 ∧ (webhook w).2.1 = "OK") ∨
      ((webhook w).1 = 500 ∧ (webhook w).2.1 = "Error")) := by
  refine ⟨?_, ?_, ?_, ?_, ?_⟩
  · intro ai rf
    rfl
  · intro ai rf t rt
    unfold webhook processEvents
    by_cases hrf : rf rt
    · simp [hrf, processEvents]
    · simp [hrf, processEvents]
  · intro ai t rt
    rfl
  · intro ai rf
    rfl
  · intro w
    unfold webhook
    by_cases hlc : w.lineConfigured
    · simp only [hlc, Bool.not_true, Bool.false_eq_true, if_false]
      cases hp : w.parse with
      | invalidSignature => simp
      | otherError => simp
      | events evs =>
        rcases hpe : processEvents w evs [] with ⟨b, sent⟩
        cases b <;> simp [hpe]
    · simp [hlc]

/-- C10: when the LINE credentials are absent, every POST to the webhook
endpoint yields HTTP 500 "Error" with no reply sent, regardless of the body,
the signature, and the state of the AI service: `parse_webhook` raises before
any event is processed and the top-level handler converts it. -/
theorem C10_unconfigured_always_500 :
    ∀ p ai rf, webhook ⟨false, p, ai, rf⟩ = (500, "Error", []) := by
  intro p ai rf
  rfl

/-- C8 counterexample: with no adapter configured, POST with message "help"
returns HTTP 200 whose response field is the fixed unavailable message, not
the help-menu text — `generate_response` checks `is_configured` before the
help-command branch. -/
theorem C8_counterexample :
    test_message envNone (TestBody.json (some "help")) =
        (200, TestResp.fieldResponse (some unavailableMsg)) ∧
      unavailableMsg ≠ helpMenu := by
  refine ⟨by decide, by decide⟩

/-- C8 amended: a POST whose JSON body lacks the message key (or carries an
empty message) always returns HTTP 400 with the "Message is required" error;
a POST with message "help" returns HTTP 200 with the fixed help-menu text in
the response field provided at least one backend signal is configured (with
nothing configured it returns HTTP 200 with the fixed unavailable message). -/
theorem C8_test_endpoint :
    (∀ env, test_message env (TestBody.json none) =
        (400, TestResp.fieldError "Message is required")) ∧
    (∀ env, test_message env (TestBody.json (some "")) =
        (400, TestResp.fieldError "Message is required")) ∧
    (∀ env, is_configured env = true →
        test_message env (TestBody.json (some "help")) =
          (200, TestResp.fieldResponse (some helpMenu))) := by
  refine ⟨fun env => rfl, fun env => rfl, ?_⟩
  intro env hc
  have h1 : pyLower "help" ∉ greetCmds := by decide
  have h2 : pyLower "help" ∈ helpCmds := by decide
  have h3 : ("help" == "") = false := by decide
  unfold test_message generate_response generate_responseI
  simp [hc, h1, h2, h3]

/-- C8 witness: the amended theorem's configured conjunct at the
anthropic-only environment. -/
theorem C8_witness :
    is_configured envAnthropicOnly = true ∧
      test_message envAnthropicOnly (TestBody.json (some "help")) =
        (200, TestResp.fieldResponse (some helpMenu)) :=
  ⟨by decide, C8_test_endpoint.2.2 envAnthropicOnly (by decide)⟩
